import Mathlib

/-!
Shallow embedding of `src/core/Grid.js` (PathFinding.js fork).

The JavaScript `Grid` owns a 2D array of mutable `Node` objects.  To make
object identity and aliasing observable (needed for clone independence),
nodes live in an explicit `Store` (a heap of `NodeData`, addressed by
allocation index) and a `Grid` holds the addresses, row-major `[y][x]`,
exactly like `this.nodes[y][x]` in the source.  Pure queries read through
the store; `setWalkableAt` writes the store.
-/

namespace PathFinding

/-- A JS `walkable` attribute: either a boolean or a directional border tag
string (`"top"`, `"right"`, `"bottom"`, `"left"`). -/
inductive Walk where
  | b : Bool → Walk
  | tag : String → Walk
deriving DecidableEq, Repr

/-- A JS value appearing as an obstacle-matrix cell: a number, a boolean, or
null/undefined.  `truthy` is JS truthiness on these. -/
inductive MVal where
  | num : Int → MVal
  | bool : Bool → MVal
  | null : MVal
deriving DecidableEq, Repr

def MVal.truthy : MVal → Bool
  | .num n => n != 0
  | .bool b => b
  | .null => false

/-- Modelled from the spec: the external `Node` collaborator (its file is not
in `src/`).  A node stores immutable coordinates and the `walkable`
attribute.  Per-search mutable state (versioned by the generation counter)
is not consulted by any Grid operation we embed, so it is omitted. -/
structure NodeData where
  x : Int
  y : Int
  walkable : Walk
deriving DecidableEq, Repr

/-- Modelled from the spec: `Node.prototype.get(iteration)` returns the
versioned snapshot of the node as of the given generation.  The snapshot
keeps the coordinates and the (unversioned) `walkable` attribute; the
generation only resets mutable search fields, which the modelled node does
not carry, so the snapshot equals the node. -/
def NodeData.get (n : NodeData) (_iteration : Nat) : NodeData := n

/-- The heap of allocated nodes, addressed by allocation index. -/
abbrev Store := List NodeData

def defaultNode : NodeData := ⟨0, 0, Walk.b true⟩

/-- Dereference a node address.  Addresses held by a well-formed grid are
always in range; the default is never reached there. -/
def Store.read (s : Store) (id : Nat) : NodeData := s.getD id defaultNode

/-- The `Grid`: dimensions, the row-major `[y][x]` array of node addresses,
and the generation counter `iteration`. -/
structure Grid where
  width : Nat
  height : Nat
  nodes : List (List Nat)
  iteration : Nat
deriving DecidableEq, Repr

/-- Fresh nodes for `_buildNodes`: row `i` holds `new Node(j, i)` with the
given walkable attribute, for `j < width`, `i < height`. -/
def mkNodes (width height : Nat) (f : Nat → Nat → Walk) : List (List NodeData) :=
  (List.range height).map fun (i : Nat) => (List.range width).map fun (j : Nat) =>
    { x := Int.ofNat j, y := Int.ofNat i, walkable := f i j }

/-- The walkable attribute `_buildNodes` leaves on the node in row `i`,
column `j`: the default `true` without a matrix, else `false` exactly on
truthy matrix cells. -/
def matrixWalk (matrix : Option (List (List MVal))) (i j : Nat) : Walk :=
  match matrix with
  | none => Walk.b true
  | some m =>
    if ((m.getD i []).getD j MVal.null).truthy then Walk.b false else Walk.b true

/-- `Grid.prototype._buildNodes(width, height, matrix)`: all nodes default
walkable; if a matrix is supplied, first check `matrix.length !== height ||
matrix[0].length !== width` and throw `'Matrix size does not fit'`, then
mark every truthy cell non-walkable.  A JS read of a missing entry
(`matrix[i][j]` past the end of a short row) yields `undefined`, i.e. falsy;
`getD … MVal.null` models that. -/
def buildNodes (width height : Nat) (matrix : Option (List (List MVal))) :
    Except String (List (List NodeData)) :=
  match matrix with
  | none => .ok (mkNodes width height (matrixWalk none))
  | some m =>
    if m.length ≠ height ∨ (m.headD []).length ≠ width then
      .error "Matrix size does not fit"
    else
      .ok (mkNodes width height (matrixWalk (some m)))

/-- Allocation bookkeeping shared by the constructor and `clone`: append the
freshly built rows to the store and record their addresses row-major. -/
def allocIds (base width height : Nat) : List (List Nat) :=
  (List.range height).map fun i => (List.range width).map fun j => base + (i * width + j)

/-- `new Grid(width, height, matrix)`: build the nodes (or fail on shape
mismatch), allocate them, and start with `iteration = 0`. -/
def Grid.construct (s : Store) (width height : Nat) (matrix : Option (List (List MVal))) :
    Except String (Store × Grid) :=
  (buildNodes width height matrix).map fun ns =>
    (s ++ ns.flatten,
     { width := width, height := height, nodes := allocIds s.length width height,
       iteration := 0 })

/-- `new Grid(width, height)` with no matrix: never fails. -/
def Grid.new (s : Store) (width height : Nat) : Store × Grid :=
  (s ++ (mkNodes width height fun _ _ => Walk.b true).flatten,
   { width := width, height := height, nodes := allocIds s.length width height,
     iteration := 0 })

/-- The address stored at `this.nodes[y][x]` (JS indexing: out-of-range
reads are a precondition violation; callers below always guard bounds). -/
def Grid.nodeId (g : Grid) (x y : Int) : Nat :=
  (g.nodes.getD y.toNat []).getD x.toNat 0

/-- `Grid.prototype.isInside(x, y)`. -/
def Grid.isInside (g : Grid) (x y : Int) : Bool :=
  decide (0 ≤ x) && decide (x < (g.width : Int)) && decide (0 ≤ y) && decide (y < (g.height : Int))

/-- `Grid.prototype.getNodeAt(x, y)`: `this.nodes[y][x].get(this.iteration)`. -/
def Grid.getNodeAt (g : Grid) (s : Store) (x y : Int) : NodeData :=
  (Store.read s (g.nodeId x y)).get g.iteration

/-- `Grid.prototype.isWalkableAt(x, y, border)`: false outside the grid;
otherwise a string tag is walkable iff `walkable != border` and a boolean is
returned as-is. -/
def Grid.isWalkableAt (g : Grid) (s : Store) (x y : Int) (border : Option String) : Bool :=
  if !(g.isInside x y) then
    false
  else
    match ((Store.read s (g.nodeId x y)).get g.iteration).walkable with
    | Walk.b b => b
    | Walk.tag t => border != some t

/-- `Grid.prototype.setWalkableAt(x, y, walkable)`: overwrite the node's
walkable attribute in place (in-bounds is a caller precondition). -/
def Grid.setWalkableAt (g : Grid) (s : Store) (x y : Int) (w : Walk) : Store :=
  let id := g.nodeId x y
  s.set id { Store.read s id with walkable := w }

/-- `Grid.prototype.increment()`: `this.iteration++`. -/
def Grid.increment (g : Grid) : Grid :=
  { g with iteration := g.iteration + 1 }

/-- `Grid.prototype.clone()`: `new Grid(width, height)` first (allocating a
throw-away default array, as the source does), then a fresh array of
`new Node(j, i, thisNodes[i][j].walkable)` replaces `newGrid.nodes`. -/
def Grid.clone (g : Grid) (s : Store) : Store × Grid :=
  let w := g.width
  let h := g.height
  let p := Grid.new s w h
  let s1 := p.1
  let newNodes := mkNodes w h fun i j => (Store.read s (g.nodeId (j : Int) (i : Int))).walkable
  (s1 ++ newNodes.flatten, { p.2 with nodes := allocIds s1.length w h })

/-- `Grid.prototype.getNeighbors(node, allowDiagonal, dontCrossCorners)`,
transcribed statement by statement: `s0..s3` record which orthogonal pushes
fired, `d0..d3` are the diagonal eligibility flags, and each `if (cond)
neighbors.push(...)` becomes an append under the same condition. -/
def Grid.getNeighbors (g : Grid) (s : Store) (node : NodeData)
    (allowDiagonal dontCrossCorners : Bool) : List NodeData :=
  let x := node.x
  let y := node.y
  let neighbors : List NodeData := []
  -- up
  let s0 := g.isWalkableAt s x (y - 1) (some "bottom") && g.isWalkableAt s x y (some "top")
  let neighbors := if s0 then neighbors ++ [g.getNodeAt s x (y - 1)] else neighbors
  -- right
  let s1 := g.isWalkableAt s (x + 1) y (some "left") && g.isWalkableAt s x y (some "right")
  let neighbors := if s1 then neighbors ++ [g.getNodeAt s (x + 1) y] else neighbors
  -- down
  let s2 := g.isWalkableAt s x (y + 1) (some "top") && g.isWalkableAt s x y (some "bottom")
  let neighbors := if s2 then neighbors ++ [g.getNodeAt s x (y + 1)] else neighbors
  -- left
  let s3 := g.isWalkableAt s (x - 1) y (some "right") && g.isWalkableAt s x y (some "left")
  let neighbors := if s3 then neighbors ++ [g.getNodeAt s (x - 1) y] else neighbors
  if !allowDiagonal then
    neighbors
  else
    let d0 := if dontCrossCorners then s3 && s0 else s3 || s0
    let d1 := if dontCrossCorners then s0 && s1 else s0 || s1
    let d2 := if dontCrossCorners then s1 && s2 else s1 || s2
    let d3 := if dontCrossCorners then s2 && s3 else s2 || s3
    -- up-left
    let neighbors := if d0 && g.isWalkableAt s (x - 1) (y - 1) (some "bottom") &&
        g.isWalkableAt s (x - 1) y (some "top") &&
        g.isWalkableAt s (x - 1) (y - 1) (some "right") &&
        g.isWalkableAt s x (y - 1) (some "left") then
      neighbors ++ [g.getNodeAt s (x - 1) (y - 1)] else neighbors
    -- up-right
    let neighbors := if d1 && g.isWalkableAt s (x + 1) (y - 1) (some "bottom") &&
        g.isWalkableAt s (x + 1) y (some "top") &&
        g.isWalkableAt s (x + 1) (y - 1) (some "left") &&
        g.isWalkableAt s x (y - 1) (some "right") then
      neighbors ++ [g.getNodeAt s (x + 1) (y - 1)] else neighbors
    -- down-right
    let neighbors := if d2 && g.isWalkableAt s (x + 1) (y + 1) (some "top") &&
        g.isWalkableAt s (x + 1) y (some "bottom") &&
        g.isWalkableAt s (x + 1) (y + 1) (some "left") &&
        g.isWalkableAt s x (y + 1) (some "right") then
      neighbors ++ [g.getNodeAt s (x + 1) (y + 1)] else neighbors
    -- down-left
    let neighbors := if d3 && g.isWalkableAt s (x - 1) (y + 1) (some "top") &&
        g.isWalkableAt s (x - 1) y (some "bottom") &&
        g.isWalkableAt s (x - 1) (y + 1) (some "right") &&
        g.isWalkableAt s x (y + 1) (some "left") then
      neighbors ++ [g.getNodeAt s (x - 1) (y + 1)] else neighbors
    neighbors

/-! Named forms of the walkability conditions appearing in `getNeighbors`,
used to state the claims.  Each is the literal condition of the
corresponding `if` in the source. -/

def Grid.upOK (g : Grid) (s : Store) (x y : Int) : Bool :=
  g.isWalkableAt s x (y - 1) (some "bottom") && g.isWalkableAt s x y (some "top")

def Grid.rightOK (g : Grid) (s : Store) (x y : Int) : Bool :=
  g.isWalkableAt s (x + 1) y (some "left") && g.isWalkableAt s x y (some "right")

def Grid.downOK (g : Grid) (s : Store) (x y : Int) : Bool :=
  g.isWalkableAt s x (y + 1) (some "top") && g.isWalkableAt s x y (some "bottom")

def Grid.leftOK (g : Grid) (s : Store) (x y : Int) : Bool :=
  g.isWalkableAt s (x - 1) y (some "right") && g.isWalkableAt s x y (some "left")

/-- The four directional checks guarding the up-left diagonal push. -/
def Grid.ulOK (g : Grid) (s : Store) (x y : Int) : Bool :=
  g.isWalkableAt s (x - 1) (y - 1) (some "bottom") && g.isWalkableAt s (x - 1) y (some "top") &&
  g.isWalkableAt s (x - 1) (y - 1) (some "right") && g.isWalkableAt s x (y - 1) (some "left")

/-- The four directional checks guarding the up-right diagonal push. -/
def Grid.urOK (g : Grid) (s : Store) (x y : Int) : Bool :=
  g.isWalkableAt s (x + 1) (y - 1) (some "bottom") && g.isWalkableAt s (x + 1) y (some "top") &&
  g.isWalkableAt s (x + 1) (y - 1) (some "left") && g.isWalkableAt s x (y - 1) (some "right")

/-- The four directional checks guarding the down-right diagonal push. -/
def Grid.drOK (g : Grid) (s : Store) (x y : Int) : Bool :=
  g.isWalkableAt s (x + 1) (y + 1) (some "top") && g.isWalkableAt s (x + 1) y (some "bottom") &&
  g.isWalkableAt s (x + 1) (y + 1) (some "left") && g.isWalkableAt s x (y + 1) (some "right")

/-- The four directional checks guarding the down-left diagonal push. -/
def Grid.dlOK (g : Grid) (s : Store) (x y : Int) : Bool :=
  g.isWalkableAt s (x - 1) (y + 1) (some "top") && g.isWalkableAt s (x - 1) y (some "bottom") &&
  g.isWalkableAt s (x - 1) (y + 1) (some "right") && g.isWalkableAt s x (y + 1) (some "left")

/-- Diagonal eligibility as computed from the orthogonal success flags. -/
def dflag (dontCrossCorners a b : Bool) : Bool :=
  if dontCrossCorners then a && b else a || b

/-! ### Bounds-checked variants

The source indexes `this.nodes[y][x]` without bounds checks; in JS an
out-of-range index yields `undefined` and the subsequent `.get` call
faults.  The `Checked` variants below are the same code with every
node-array indexing made fallible, so "never accesses out of bounds" can
be stated as: the checked variant returns `some` of the unchecked value. -/

/-- `getNodeAt` with both node-array indexings bounds-checked. -/
def Grid.getNodeAtChecked (g : Grid) (s : Store) (x y : Int) : Option NodeData :=
  if 0 ≤ y ∧ y.toNat < g.nodes.length then
    let row := g.nodes.getD y.toNat []
    if 0 ≤ x ∧ x.toNat < row.length then
      some ((Store.read s (row.getD x.toNat 0)).get g.iteration)
    else none
  else none

/-- `isWalkableAt` with its (already `isInside`-guarded) node access
bounds-checked. -/
def Grid.isWalkableAtChecked (g : Grid) (s : Store) (x y : Int) (border : Option String) :
    Option Bool :=
  if !(g.isInside x y) then some false
  else (g.getNodeAtChecked s x y).map fun n =>
    match n.walkable with
    | Walk.b b => b
    | Walk.tag t => border != some t

/-- One orthogonal step of `getNeighbors`, bounds-checked: the two
walkability checks (neighbor cell at `(nx, ny)` with border `b1`, origin
cell at `(x, y)` with border `b2`), and the guarded push of the neighbor
snapshot.  Returns the success flag and the pushed segment. -/
def orthSegChecked (g : Grid) (s : Store) (nx ny : Int) (b1 : String) (x y : Int)
    (b2 : String) : Option (Bool × List NodeData) :=
  Option.bind (g.isWalkableAtChecked s nx ny (some b1)) fun w1 =>
  Option.bind (g.isWalkableAtChecked s x y (some b2)) fun w2 =>
  Option.bind (if w1 && w2 then (g.getNodeAtChecked s nx ny).map fun n => [n] else some [])
    fun l => some (w1 && w2, l)

/-- One diagonal step of `getNeighbors`, bounds-checked: the eligibility
flag, the four directional walkability checks (target at `(tx, ty)` with
borders `b1`/`b3`, flanking cells at `(fx, fy)` and `(sx, sy)` with borders
`b2`/`b4`), and the guarded push of the diagonal snapshot. -/
def diagSegChecked (g : Grid) (s : Store) (flag : Bool) (tx ty fx fy sx sy : Int)
    (b1 b2 b3 b4 : String) : Option (List NodeData) :=
  Option.bind (g.isWalkableAtChecked s tx ty (some b1)) fun c1 =>
  Option.bind (g.isWalkableAtChecked s fx fy (some b2)) fun c2 =>
  Option.bind (g.isWalkableAtChecked s tx ty (some b3)) fun c3 =>
  Option.bind (g.isWalkableAtChecked s sx sy (some b4)) fun c4 =>
  if flag && c1 && c2 && c3 && c4 then (g.getNodeAtChecked s tx ty).map fun n => [n]
  else some []

/-- `getNeighbors` with every node-array access bounds-checked, in the same
order and under the same conditions as the source. -/
def Grid.getNeighborsChecked (g : Grid) (s : Store) (node : NodeData)
    (allowDiagonal dontCrossCorners : Bool) : Option (List NodeData) :=
  let x := node.x
  let y := node.y
  Option.bind (orthSegChecked g s x (y - 1) "bottom" x y "top") fun p0 =>
  Option.bind (orthSegChecked g s (x + 1) y "left" x y "right") fun p1 =>
  Option.bind (orthSegChecked g s x (y + 1) "top" x y "bottom") fun p2 =>
  Option.bind (orthSegChecked g s (x - 1) y "right" x y "left") fun p3 =>
  if !allowDiagonal then some (p0.2 ++ p1.2 ++ p2.2 ++ p3.2)
  else
    Option.bind (diagSegChecked g s (dflag dontCrossCorners p3.1 p0.1)
      (x - 1) (y - 1) (x - 1) y x (y - 1) "bottom" "top" "right" "left") fun m0 =>
    Option.bind (diagSegChecked g s (dflag dontCrossCorners p0.1 p1.1)
      (x + 1) (y - 1) (x + 1) y x (y - 1) "bottom" "top" "left" "right") fun m1 =>
    Option.bind (diagSegChecked g s (dflag dontCrossCorners p1.1 p2.1)
      (x + 1) (y + 1) (x + 1) y x (y + 1) "top" "bottom" "left" "right") fun m2 =>
    Option.bind (diagSegChecked g s (dflag dontCrossCorners p2.1 p3.1)
      (x - 1) (y + 1) (x - 1) y x (y + 1) "top" "bottom" "right" "left") fun m3 =>
    some (p0.2 ++ p1.2 ++ p2.2 ++ p3.2 ++ m0 ++ m1 ++ m2 ++ m3)

/-! ### Concrete grids for examples and witnesses -/

/-- A 4x4 obstacle-free grid with its store. -/
def demo4 : Store × Grid := Grid.new [] 4 4

/-- A 3x3 obstacle-free grid with its store. -/
def demo3 : Store × Grid := Grid.new [] 3 3

/-- A 2x2 obstacle-free grid with its store. -/
def demo2 : Store × Grid := Grid.new [] 2 2

/-- A ragged matrix: two rows as declared, but the second row too short. -/
def raggedM : List (List MVal) := [[MVal.num 1, MVal.num 1], [MVal.num 1]]

/-- A 2x2 matrix with a single 1 at row 0, column 1. -/
def demoM : List (List MVal) := [[MVal.num 0, MVal.num 1], [MVal.num 0, MVal.num 0]]

def fallbackPair : Store × Grid := ([], { width := 0, height := 0, nodes := [], iteration := 0 })

/-- The grid built from `demoM`. -/
def demo5 : Store × Grid := (Grid.construct [] 2 2 (some demoM)).toOption.getD fallbackPair

/-- The grid built from the ragged matrix (which construction accepts). -/
def demoRagged : Store × Grid :=
  (Grid.construct [] 2 2 (some raggedM)).toOption.getD fallbackPair

/-- A 3x3 grid whose center cell is orthogonally enclosed (up, right, down,
left all blocked) but with all four diagonal cells free. -/
def demoEnclosed : Store × Grid :=
  (Grid.construct [] 3 3 (some
    [[MVal.num 0, MVal.num 1, MVal.num 0],
     [MVal.num 1, MVal.num 0, MVal.num 1],
     [MVal.num 0, MVal.num 1, MVal.num 0]])).toOption.getD fallbackPair

/-- A 1x1 grid whose single cell carries the border tag `"left"`. -/
def demoTagged : Store × Grid :=
  ([{ x := 0, y := 0, walkable := Walk.tag "left" }],
   { width := 1, height := 1, nodes := [[0]], iteration := 0 })

/-- Structural well-formedness of the node array: `height` rows of `width`
addresses each (the `_buildNodes` invariant). -/
def Grid.Shape (g : Grid) : Prop :=
  g.nodes.length = g.height ∧ ∀ r ∈ g.nodes, r.length = g.width

/-- Full well-formedness against a store: the shape invariant plus every
stored address dereferenceable. -/
def Grid.WF (g : Grid) (s : Store) : Prop :=
  g.Shape ∧ ∀ r ∈ g.nodes, ∀ id ∈ r, id < s.length

instance (g : Grid) : Decidable g.Shape := by
  unfold Grid.Shape; infer_instance

instance (g : Grid) (s : Store) : Decidable (g.WF s) := by
  unfold Grid.WF; infer_instance

/-! ### List-indexing helpers -/

theorem getD_set_ne {α : Type} (l : List α) (i j : Nat) (a d : α) (h : i ≠ j) :
    (l.set i a).getD j d = l.getD j d := by
  simp [List.getD, List.getElem?_set_ne h]

theorem getD_map_lt {α β : Type} (l : List α) (f : α → β) (i : Nat) (d : α) (d' : β)
    (h : i < l.length) : (l.map f).getD i d' = f (l.getD i d) := by
  simp [List.getD, List.getElem?_map, List.getElem?_eq_getElem, h]

theorem getD_range (n i d : Nat) (h : i < n) : (List.range n).getD i d = i := by
  simp [List.getD, List.getElem?_range, h]

/-- Indexing the flattening of a list of rows of uniform width. -/
theorem flatten_getD_of_rows {α : Type} (ns : List (List α)) (w : Nat)
    (hw : ∀ r ∈ ns, r.length = w) (i j : Nat) (hi : i < ns.length) (hj : j < w) (d : α) :
    ns.flatten.getD (i * w + j) d = (ns.getD i []).getD j d := by
  induction ns generalizing i with
  | nil => exact absurd hi (Nat.not_lt_zero i)
  | cons r rs ih =>
    have hr : r.length = w := hw r (List.mem_cons_self r rs)
    cases i with
    | zero =>
      have hjr : j < r.length := hr ▸ hj
      simpa [List.flatten_cons] using List.getD_append r rs.flatten d j hjr
    | succ i =>
      have hle : r.length ≤ (i + 1) * w + j := by
        rw [hr, Nat.succ_mul]; omega
      have harith : (i + 1) * w + j - r.length = i * w + j := by
        rw [hr, Nat.succ_mul]; omega
      rw [List.flatten_cons, List.getD_append_right r rs.flatten d _ hle, harith]
      exact ih (fun r hr' => hw r (List.mem_cons_of_mem _ hr')) i (Nat.lt_of_succ_lt_succ hi)

theorem mkNodes_length (w h : Nat) (f : Nat → Nat → Walk) : (mkNodes w h f).length = h := by
  simp [mkNodes]

theorem mkNodes_rows (w h : Nat) (f : Nat → Nat → Walk) :
    ∀ r ∈ mkNodes w h f, r.length = w := by
  intro r hr
  simp only [mkNodes, List.mem_map] at hr
  obtain ⟨i, -, rfl⟩ := hr
  simp

theorem mkNodes_getD (w h : Nat) (f : Nat → Nat → Walk) (i j : Nat) (hi : i < h) (hj : j < w)
    (d : NodeData) :
    ((mkNodes w h f).getD i []).getD j d =
      { x := Int.ofNat j, y := Int.ofNat i, walkable := f i j } := by
  unfold mkNodes
  rw [getD_map_lt _ _ i 0 [] (by simpa using hi), getD_range h i 0 hi,
    getD_map_lt _ _ j 0 d (by simpa using hj), getD_range w j 0 hj]

theorem mkNodes_flatten_getD (w h : Nat) (f : Nat → Nat → Walk) (i j : Nat)
    (hi : i < h) (hj : j < w) (d : NodeData) :
    (mkNodes w h f).flatten.getD (i * w + j) d =
      { x := Int.ofNat j, y := Int.ofNat i, walkable := f i j } := by
  rw [flatten_getD_of_rows _ w (mkNodes_rows w h f) i j (by simpa [mkNodes_length] using hi) hj,
    mkNodes_getD w h f i j hi hj]

theorem allocIds_getD (base w h i j : Nat) (hi : i < h) (hj : j < w) :
    ((allocIds base w h).getD i []).getD j 0 = base + (i * w + j) := by
  unfold allocIds
  rw [getD_map_lt _ _ i 0 [] (by simpa using hi), getD_range h i 0 hi,
    getD_map_lt _ _ j 0 0 (by simpa using hj), getD_range w j 0 hj]

/-- Reading an address below the original length through an extended store. -/
theorem read_append_of_lt (s t : Store) (id : Nat) (h : id < s.length) :
    Store.read (s ++ t) id = Store.read s id := by
  unfold Store.read
  exact List.getD_append s t defaultNode id h

/-- Reading a freshly appended block. -/
theorem read_append_add (s t : Store) (k : Nat) :
    Store.read (s ++ t) (s.length + k) = Store.read t k := by
  unfold Store.read
  rw [List.getD_append_right s t defaultNode _ (Nat.le_add_right _ _), Nat.add_sub_cancel_left]

/-- A store write at one address leaves reads of other addresses unchanged. -/
theorem read_set_ne (s : Store) (i j : Nat) (a : NodeData) (h : i ≠ j) :
    Store.read (s.set i a) j = Store.read s j := by
  unfold Store.read
  exact getD_set_ne s i j a defaultNode h

/-! ### Grid-level helper lemmas -/

theorem isInside_iff (g : Grid) (x y : Int) :
    g.isInside x y = true ↔
      0 ≤ x ∧ x < (g.width : Int) ∧ 0 ≤ y ∧ y < (g.height : Int) := by
  simp [Grid.isInside, and_assoc]

theorem inside_bounds (g : Grid) (x y : Int) (h : g.isInside x y = true) :
    0 ≤ x ∧ x.toNat < g.width ∧ 0 ≤ y ∧ y.toNat < g.height := by
  obtain ⟨hx0, hxw, hy0, hyh⟩ := (isInside_iff g x y).mp h
  exact ⟨hx0, (Int.toNat_lt' (by omega)).mpr (by omega), hy0, (Int.toNat_lt' (by omega)).mpr (by omega)⟩

/-- A positive walkability verdict implies the queried cell is in bounds. -/
theorem walk_imp_inside (g : Grid) (s : Store) (x y : Int) (border : Option String)
    (h : g.isWalkableAt s x y border = true) : g.isInside x y = true := by
  cases hin : g.isInside x y with
  | true => rfl
  | false => simp [Grid.isWalkableAt, hin] at h

/-- Whether a supplied matrix passes the `_buildNodes` shape check. -/
def matrixFits (width height : Nat) : Option (List (List MVal)) → Prop
  | none => True
  | some m => m.length = height ∧ (m.headD []).length = width

instance (width height : Nat) (m : Option (List (List MVal))) :
    Decidable (matrixFits width height m) := by
  cases m <;> (unfold matrixFits; infer_instance)

theorem buildNodes_eq_ok (width height : Nat) (m : Option (List (List MVal)))
    (ns : List (List NodeData)) :
    buildNodes width height m = .ok ns ↔
      matrixFits width height m ∧ ns = mkNodes width height (matrixWalk m) := by
  cases m with
  | none => simp [buildNodes, matrixFits, eq_comm]
  | some mm =>
    show (if mm.length ≠ height ∨ (mm.headD []).length ≠ width then
        (Except.error "Matrix size does not fit" : Except String (List (List NodeData)))
      else .ok (mkNodes width height (matrixWalk (some mm)))) = .ok ns ↔ _
    by_cases hc : mm.length ≠ height ∨ (mm.headD []).length ≠ width
    · rw [if_pos hc]
      constructor
      · intro h; exact absurd h (by simp)
      · rintro ⟨⟨h1, h2⟩, -⟩
        exact absurd hc (by tauto)
    · rw [if_neg hc]
      push_neg at hc
      constructor
      · intro h
        injection h with h
        exact ⟨⟨hc.1, hc.2⟩, h.symm⟩
      · rintro ⟨-, rfl⟩; rfl

theorem construct_eq_ok (s : Store) (width height : Nat) (m : Option (List (List MVal)))
    (s' : Store) (g : Grid) :
    Grid.construct s width height m = .ok (s', g) ↔
      matrixFits width height m ∧
      s' = s ++ (mkNodes width height (matrixWalk m)).flatten ∧
      g = { width := width, height := height, nodes := allocIds s.length width height,
            iteration := 0 } := by
  unfold Grid.construct
  cases hb : buildNodes width height m with
  | error e =>
    constructor
    · intro h; simp [Except.map] at h
    · rintro ⟨hfit, -, -⟩
      have h2 := (buildNodes_eq_ok width height m (mkNodes width height (matrixWalk m))).mpr
        ⟨hfit, rfl⟩
      rw [hb] at h2
      simp at h2
  | ok ns =>
    obtain ⟨hfit, rfl⟩ := (buildNodes_eq_ok width height m ns).mp hb
    simp only [Except.map, Except.ok.injEq, Prod.mk.injEq]
    constructor
    · rintro ⟨rfl, rfl⟩; exact ⟨hfit, rfl, rfl⟩
    · rintro ⟨-, rfl, rfl⟩; exact ⟨rfl, rfl⟩

/-- `construct` with no matrix is exactly `new`. -/
theorem construct_none (s : Store) (width height : Nat) :
    Grid.construct s width height none = .ok (Grid.new s width height) := by
  rfl

/-- The node address held by an allocation-compact grid. -/
theorem nodeId_alloc (g : Grid) (base : Nat) (hn : g.nodes = allocIds base g.width g.height)
    (x y : Int) (hx0 : 0 ≤ x) (hxw : x.toNat < g.width) (hy0 : 0 ≤ y)
    (hyh : y.toNat < g.height) :
    g.nodeId x y = base + (y.toNat * g.width + x.toNat) := by
  unfold Grid.nodeId
  rw [hn]
  exact allocIds_getD base g.width g.height y.toNat x.toNat hyh hxw

/-- Reading an in-bounds node of a grid freshly produced by `construct`. -/
theorem construct_read (s : Store) (width height : Nat) (m : Option (List (List MVal)))
    (s' : Store) (g : Grid) (hok : Grid.construct s width height m = .ok (s', g))
    (x y : Int) (hx0 : 0 ≤ x) (hxw : x.toNat < width) (hy0 : 0 ≤ y) (hyh : y.toNat < height) :
    Store.read s' (g.nodeId x y) =
      { x := x, y := y, walkable := matrixWalk m y.toNat x.toNat } := by
  obtain ⟨-, rfl, rfl⟩ := (construct_eq_ok s width height m s' g).mp hok
  rw [nodeId_alloc _ s.length rfl x y hx0 hxw hy0 hyh, read_append_add]
  show (mkNodes width height (matrixWalk m)).flatten.getD _ defaultNode = _
  rw [mkNodes_flatten_getD width height (matrixWalk m) y.toNat x.toNat hyh hxw]
  simp [Int.toNat_of_nonneg, hx0, hy0]

theorem ite_append_push {α : Type} (c : Prop) [Decidable c] (ns l : List α) :
    (if c then ns ++ l else ns) = ns ++ (if c then l else []) := by
  by_cases h : c <;> simp [h]

theorem ite_cons_push {α : Type} (c : Prop) [Decidable c] (a : α) (l1 l2 : List α) :
    (if c then a :: l1 else a :: l2) = a :: (if c then l1 else l2) := by
  by_cases h : c <;> simp [h]

/-- Closed form of `getNeighbors`: the four orthogonal candidates in order
up, right, down, left, each present iff its double walkability check holds,
followed (when diagonals are allowed) by up-left, up-right, down-right,
down-left, each present iff its eligibility flag and its four directional
checks hold. -/
theorem getNeighbors_eq (g : Grid) (s : Store) (node : NodeData) (ad dcc : Bool) :
    g.getNeighbors s node ad dcc =
      (if g.upOK s node.x node.y then [g.getNodeAt s node.x (node.y - 1)] else []) ++
      (if g.rightOK s node.x node.y then [g.getNodeAt s (node.x + 1) node.y] else []) ++
      (if g.downOK s node.x node.y then [g.getNodeAt s node.x (node.y + 1)] else []) ++
      (if g.leftOK s node.x node.y then [g.getNodeAt s (node.x - 1) node.y] else []) ++
      (if ad then
        (if dflag dcc (g.leftOK s node.x node.y) (g.upOK s node.x node.y) &&
            g.ulOK s node.x node.y then
          [g.getNodeAt s (node.x - 1) (node.y - 1)] else []) ++
        (if dflag dcc (g.upOK s node.x node.y) (g.rightOK s node.x node.y) &&
            g.urOK s node.x node.y then
          [g.getNodeAt s (node.x + 1) (node.y - 1)] else []) ++
        (if dflag dcc (g.rightOK s node.x node.y) (g.downOK s node.x node.y) &&
            g.drOK s node.x node.y then
          [g.getNodeAt s (node.x + 1) (node.y + 1)] else []) ++
        (if dflag dcc (g.downOK s node.x node.y) (g.leftOK s node.x node.y) &&
            g.dlOK s node.x node.y then
          [g.getNodeAt s (node.x - 1) (node.y + 1)] else [])
      else []) := by
  cases ad <;> cases dcc <;>
    cases h0 : g.isWalkableAt s node.x (node.y - 1) (some "bottom") &&
      g.isWalkableAt s node.x node.y (some "top") <;>
    cases h1 : g.isWalkableAt s (node.x + 1) node.y (some "left") &&
      g.isWalkableAt s node.x node.y (some "right") <;>
    cases h2 : g.isWalkableAt s node.x (node.y + 1) (some "top") &&
      g.isWalkableAt s node.x node.y (some "bottom") <;>
    cases h3 : g.isWalkableAt s (node.x - 1) node.y (some "right") &&
      g.isWalkableAt s node.x node.y (some "left") <;>
    simp [Grid.getNeighbors, Grid.upOK, Grid.rightOK, Grid.downOK, Grid.leftOK,
      Grid.ulOK, Grid.urOK, Grid.drOK, Grid.dlOK, dflag, h0, h1, h2, h3,
      ite_append_push, ite_cons_push, Bool.and_assoc, List.append_assoc] <;>
    (try (split_ifs <;> simp))

/-! ### Checked-variant lemmas (for the no-out-of-bounds claim) -/

theorem getD_mem {α : Type} (l : List α) (i : Nat) (d : α) (h : i < l.length) :
    l.getD i d ∈ l := by
  rw [List.getD_eq_getElem l d h]
  exact List.getElem_mem h

theorem band_left {a b : Bool} (h : (a && b) = true) : a = true := by
  cases a
  · simp at h
  · rfl

theorem band_right {a b : Bool} (h : (a && b) = true) : b = true := by
  cases b
  · simp at h
  · rfl

theorem obind_some {α β : Type} (a : α) (f : α → Option β) : Option.bind (some a) f = f a :=
  rfl

/-- With the shape invariant, an in-bounds node access succeeds and agrees
with the unchecked one. -/
theorem getNodeAtChecked_eq (g : Grid) (s : Store) (hs : g.Shape) (x y : Int)
    (hin : g.isInside x y = true) :
    g.getNodeAtChecked s x y = some (g.getNodeAt s x y) := by
  obtain ⟨hx0, hxw, hy0, hyh⟩ := inside_bounds g x y hin
  have hylen : y.toNat < g.nodes.length := by rw [hs.1]; exact hyh
  have hrow : (g.nodes.getD y.toNat []).length = g.width :=
    hs.2 _ (getD_mem g.nodes y.toNat [] hylen)
  have hxlen : x.toNat < (g.nodes.getD y.toNat []).length := by rw [hrow]; exact hxw
  unfold Grid.getNodeAtChecked
  rw [if_pos ⟨hy0, hylen⟩, if_pos ⟨hx0, hxlen⟩]
  rfl

/-- With the shape invariant, the checked walkability query always succeeds
and agrees with the unchecked one. -/
theorem wchk_eq (g : Grid) (s : Store) (hs : g.Shape) (x y : Int) (border : Option String) :
    g.isWalkableAtChecked s x y border = some (g.isWalkableAt s x y border) := by
  cases hin : g.isInside x y with
  | false => simp [Grid.isWalkableAtChecked, Grid.isWalkableAt, hin]
  | true =>
    simp only [Grid.isWalkableAtChecked, Grid.isWalkableAt, hin, Bool.not_true,
      Bool.false_eq_true, if_false, getNodeAtChecked_eq g s hs x y hin, Option.map_some]
    rfl

theorem orthSegChecked_eq (g : Grid) (s : Store) (hs : g.Shape) (nx ny : Int) (b1 : String)
    (x y : Int) (b2 : String) :
    orthSegChecked g s nx ny b1 x y b2 =
      some (g.isWalkableAt s nx ny (some b1) && g.isWalkableAt s x y (some b2),
        if g.isWalkableAt s nx ny (some b1) && g.isWalkableAt s x y (some b2) then
          [g.getNodeAt s nx ny]
        else []) := by
  unfold orthSegChecked
  rw [wchk_eq g s hs, wchk_eq g s hs, obind_some, obind_some]
  cases hc : g.isWalkableAt s nx ny (some b1) && g.isWalkableAt s x y (some b2) with
  | false => rfl
  | true =>
    rw [getNodeAtChecked_eq g s hs nx ny (walk_imp_inside g s nx ny (some b1) (band_left hc))]
    rfl

theorem diagSegChecked_eq (g : Grid) (s : Store) (hs : g.Shape) (flag : Bool)
    (tx ty fx fy sx sy : Int) (b1 b2 b3 b4 : String) :
    diagSegChecked g s flag tx ty fx fy sx sy b1 b2 b3 b4 =
      some (if flag && g.isWalkableAt s tx ty (some b1) && g.isWalkableAt s fx fy (some b2) &&
          g.isWalkableAt s tx ty (some b3) && g.isWalkableAt s sx sy (some b4) then
        [g.getNodeAt s tx ty]
      else []) := by
  unfold diagSegChecked
  rw [wchk_eq g s hs, wchk_eq g s hs, wchk_eq g s hs, wchk_eq g s hs,
    obind_some, obind_some, obind_some, obind_some]
  cases hc : flag && g.isWalkableAt s tx ty (some b1) && g.isWalkableAt s fx fy (some b2) &&
      g.isWalkableAt s tx ty (some b3) && g.isWalkableAt s sx sy (some b4) with
  | false => rfl
  | true =>
    have h1 : g.isWalkableAt s tx ty (some b1) = true :=
      band_right (band_left (band_left (band_left hc)))
    rw [getNodeAtChecked_eq g s hs tx ty (walk_imp_inside g s tx ty (some b1) h1)]
    rfl

/-- With the shape invariant, `getNeighbors` performs no out-of-bounds
node-array access: the fully bounds-checked run succeeds and returns
exactly the unchecked result. -/
theorem getNeighborsChecked_eq (g : Grid) (s : Store) (hs : g.Shape) (node : NodeData)
    (ad dcc : Bool) :
    g.getNeighborsChecked s node ad dcc = some (g.getNeighbors s node ad dcc) := by
  rw [getNeighbors_eq]
  cases ad <;>
    simp [Grid.getNeighborsChecked, orthSegChecked_eq g s hs, diagSegChecked_eq g s hs,
      obind_some, Grid.upOK, Grid.rightOK, Grid.downOK, Grid.leftOK,
      Grid.ulOK, Grid.urOK, Grid.drOK, Grid.dlOK, Bool.and_assoc, List.append_assoc]

/-! ### Further helper lemmas -/

theorem ite_singleton_nil {α : Type} (c : Bool) (a : α)
    (h : (if c then [a] else []) = ([] : List α)) : c = false := by
  cases c with
  | false => rfl
  | true => simp at h

theorem isWalkableAt_eq_of_read (g : Grid) (s : Store) (x y : Int) (border : Option String)
    (b : Bool) (hin : g.isInside x y = true)
    (hread : (Store.read s (g.nodeId x y)).walkable = Walk.b b) :
    g.isWalkableAt s x y border = b := by
  simp [Grid.isWalkableAt, hin, NodeData.get, hread]

/-! ### Claim theorems -/

/-- C1: for every grid and node, `getNeighbors` includes each orthogonal
neighbor exactly when both directional checks pass — the neighbor's cell
queried with the border tag of the side facing the origin, and the origin
cell queried with the border tag of the side facing the neighbor — and the
result is ordered up, right, down, left, then (if diagonals are requested)
up-left, up-right, down-right, down-left, omitted directions simply absent;
concretely, on a 4x4 obstacle-free grid the call at (1,1) with diagonals
and without the corner restriction returns all 8 neighbors in that order. -/
theorem claim1_orth_iff_and_order :
    (∀ (g : Grid) (s : Store) (node : NodeData) (ad dcc : Bool),
      g.getNeighbors s node ad dcc =
        (if g.isWalkableAt s node.x (node.y - 1) (some "bottom") &&
            g.isWalkableAt s node.x node.y (some "top") then
          [g.getNodeAt s node.x (node.y - 1)] else []) ++
        (if g.isWalkableAt s (node.x + 1) node.y (some "left") &&
            g.isWalkableAt s node.x node.y (some "right") then
          [g.getNodeAt s (node.x + 1) node.y] else []) ++
        (if g.isWalkableAt s node.x (node.y + 1) (some "top") &&
            g.isWalkableAt s node.x node.y (some "bottom") then
          [g.getNodeAt s node.x (node.y + 1)] else []) ++
        (if g.isWalkableAt s (node.x - 1) node.y (some "right") &&
            g.isWalkableAt s node.x node.y (some "left") then
          [g.getNodeAt s (node.x - 1) node.y] else []) ++
        (if ad then
          (if dflag dcc (g.leftOK s node.x node.y) (g.upOK s node.x node.y) &&
              g.ulOK s node.x node.y then
            [g.getNodeAt s (node.x - 1) (node.y - 1)] else []) ++
          (if dflag dcc (g.upOK s node.x node.y) (g.rightOK s node.x node.y) &&
              g.urOK s node.x node.y then
            [g.getNodeAt s (node.x + 1) (node.y - 1)] else []) ++
          (if dflag dcc (g.rightOK s node.x node.y) (g.downOK s node.x node.y) &&
              g.drOK s node.x node.y then
            [g.getNodeAt s (node.x + 1) (node.y + 1)] else []) ++
          (if dflag dcc (g.downOK s node.x node.y) (g.leftOK s node.x node.y) &&
              g.dlOK s node.x node.y then
            [g.getNodeAt s (node.x - 1) (node.y + 1)] else [])
        else [])) ∧
    demo4.2.getNeighbors demo4.1 (demo4.2.getNodeAt demo4.1 1 1) true false =
      [demo4.2.getNodeAt demo4.1 1 0, demo4.2.getNodeAt demo4.1 2 1,
       demo4.2.getNodeAt demo4.1 1 2, demo4.2.getNodeAt demo4.1 0 1,
       demo4.2.getNodeAt demo4.1 0 0, demo4.2.getNodeAt demo4.1 2 0,
       demo4.2.getNodeAt demo4.1 2 2, demo4.2.getNodeAt demo4.1 0 2] := by
  constructor
  · intro g s node ad dcc
    exact getNeighbors_eq g s node ad dcc
  · decide

/-- C2: with diagonals allowed, each diagonal's eligibility flag is the AND
of its two framing orthogonal successes when `dontCrossCorners` is true
(up-left framed by left and up, up-right by up and right, down-right by
right and down, down-left by down and left) and the OR of them when
`dontCrossCorners` is false. -/
theorem claim2_diagonal_eligibility :
    ∀ (g : Grid) (s : Store) (node : NodeData),
      (g.getNeighbors s node true true =
        (if g.upOK s node.x node.y then [g.getNodeAt s node.x (node.y - 1)] else []) ++
        (if g.rightOK s node.x node.y then [g.getNodeAt s (node.x + 1) node.y] else []) ++
        (if g.downOK s node.x node.y then [g.getNodeAt s node.x (node.y + 1)] else []) ++
        (if g.leftOK s node.x node.y then [g.getNodeAt s (node.x - 1) node.y] else []) ++
        ((if (g.leftOK s node.x node.y && g.upOK s node.x node.y) &&
            g.ulOK s node.x node.y then
          [g.getNodeAt s (node.x - 1) (node.y - 1)] else []) ++
        (if (g.upOK s node.x node.y && g.rightOK s node.x node.y) &&
            g.urOK s node.x node.y then
          [g.getNodeAt s (node.x + 1) (node.y - 1)] else []) ++
        (if (g.rightOK s node.x node.y && g.downOK s node.x node.y) &&
            g.drOK s node.x node.y then
          [g.getNodeAt s (node.x + 1) (node.y + 1)] else []) ++
        (if (g.downOK s node.x node.y && g.leftOK s node.x node.y) &&
            g.dlOK s node.x node.y then
          [g.getNodeAt s (node.x - 1) (node.y + 1)] else []))) ∧
      (g.getNeighbors s node true false =
        (if g.upOK s node.x node.y then [g.getNodeAt s node.x (node.y - 1)] else []) ++
        (if g.rightOK s node.x node.y then [g.getNodeAt s (node.x + 1) node.y] else []) ++
        (if g.downOK s node.x node.y then [g.getNodeAt s node.x (node.y + 1)] else []) ++
        (if g.leftOK s node.x node.y then [g.getNodeAt s (node.x - 1) node.y] else []) ++
        ((if (g.leftOK s node.x node.y || g.upOK s node.x node.y) &&
            g.ulOK s node.x node.y then
          [g.getNodeAt s (node.x - 1) (node.y - 1)] else []) ++
        (if (g.upOK s node.x node.y || g.rightOK s node.x node.y) &&
            g.urOK s node.x node.y then
          [g.getNodeAt s (node.x + 1) (node.y - 1)] else []) ++
        (if (g.rightOK s node.x node.y || g.downOK s node.x node.y) &&
            g.drOK s node.x node.y then
          [g.getNodeAt s (node.x + 1) (node.y + 1)] else []) ++
        (if (g.downOK s node.x node.y || g.leftOK s node.x node.y) &&
            g.dlOK s node.x node.y then
          [g.getNodeAt s (node.x - 1) (node.y + 1)] else []))) := by
  intro g s node
  exact ⟨getNeighbors_eq g s node true true, getNeighbors_eq g s node true false⟩

/-- C3: an eligible diagonal (its flag derived from the orthogonal
successes) is included exactly when its four additional directional
walkability checks pass: the diagonal target queried with the border tags
facing the move on both axes, and the two flanking cells queried with the
border tags facing the move. -/
theorem claim3_diagonal_checks :
    ∀ (g : Grid) (s : Store) (node : NodeData) (dcc : Bool),
      (dflag dcc (g.leftOK s node.x node.y) (g.upOK s node.x node.y) = true →
        g.getNeighbors s node true dcc =
          (if g.upOK s node.x node.y then [g.getNodeAt s node.x (node.y - 1)] else []) ++
          (if g.rightOK s node.x node.y then [g.getNodeAt s (node.x + 1) node.y] else []) ++
          (if g.downOK s node.x node.y then [g.getNodeAt s node.x (node.y + 1)] else []) ++
          (if g.leftOK s node.x node.y then [g.getNodeAt s (node.x - 1) node.y] else []) ++
          ((if g.ulOK s node.x node.y then
            [g.getNodeAt s (node.x - 1) (node.y - 1)] else []) ++
          (if dflag dcc (g.upOK s node.x node.y) (g.rightOK s node.x node.y) &&
              g.urOK s node.x node.y then
            [g.getNodeAt s (node.x + 1) (node.y - 1)] else []) ++
          (if dflag dcc (g.rightOK s node.x node.y) (g.downOK s node.x node.y) &&
              g.drOK s node.x node.y then
            [g.getNodeAt s (node.x + 1) (node.y + 1)] else []) ++
          (if dflag dcc (g.downOK s node.x node.y) (g.leftOK s node.x node.y) &&
              g.dlOK s node.x node.y then
            [g.getNodeAt s (node.x - 1) (node.y + 1)] else []))) ∧
      (dflag dcc (g.upOK s node.x node.y) (g.rightOK s node.x node.y) = true →
        g.getNeighbors s node true dcc =
          (if g.upOK s node.x node.y then [g.getNodeAt s node.x (node.y - 1)] else []) ++
          (if g.rightOK s node.x node.y then [g.getNodeAt s (node.x + 1) node.y] else []) ++
          (if g.downOK s node.x node.y then [g.getNodeAt s node.x (node.y + 1)] else []) ++
          (if g.leftOK s node.x node.y then [g.getNodeAt s (node.x - 1) node.y] else []) ++
          ((if dflag dcc (g.leftOK s node.x node.y) (g.upOK s node.x node.y) &&
              g.ulOK s node.x node.y then
            [g.getNodeAt s (node.x - 1) (node.y - 1)] else []) ++
          (if g.urOK s node.x node.y then
            [g.getNodeAt s (node.x + 1) (node.y - 1)] else []) ++
          (if dflag dcc (g.rightOK s node.x node.y) (g.downOK s node.x node.y) &&
              g.drOK s node.x node.y then
            [g.getNodeAt s (node.x + 1) (node.y + 1)] else []) ++
          (if dflag dcc (g.downOK s node.x node.y) (g.leftOK s node.x node.y) &&
              g.dlOK s node.x node.y then
            [g.getNodeAt s (node.x - 1) (node.y + 1)] else []))) ∧
      (dflag dcc (g.rightOK s node.x node.y) (g.downOK s node.x node.y) = true →
        g.getNeighbors s node true dcc =
          (if g.upOK s node.x node.y then [g.getNodeAt s node.x (node.y - 1)] else []) ++
          (if g.rightOK s node.x node.y then [g.getNodeAt s (node.x + 1) node.y] else []) ++
          (if g.downOK s node.x node.y then [g.getNodeAt s node.x (node.y + 1)] else []) ++
          (if g.leftOK s node.x node.y then [g.getNodeAt s (node.x - 1) node.y] else []) ++
          ((if dflag dcc (g.leftOK s node.x node.y) (g.upOK s node.x node.y) &&
              g.ulOK s node.x node.y then
            [g.getNodeAt s (node.x - 1) (node.y - 1)] else []) ++
          (if dflag dcc (g.upOK s node.x node.y) (g.rightOK s node.x node.y) &&
              g.urOK s node.x node.y then
            [g.getNodeAt s (node.x + 1) (node.y - 1)] else []) ++
          (if g.drOK s node.x node.y then
            [g.getNodeAt s (node.x + 1) (node.y + 1)] else []) ++
          (if dflag dcc (g.downOK s node.x node.y) (g.leftOK s node.x node.y) &&
              g.dlOK s node.x node.y then
            [g.getNodeAt s (node.x - 1) (node.y + 1)] else []))) ∧
      (dflag dcc (g.downOK s node.x node.y) (g.leftOK s node.x node.y) = true →
        g.getNeighbors s node true dcc =
          (if g.upOK s node.x node.y then [g.getNodeAt s node.x (node.y - 1)] else []) ++
          (if g.rightOK s node.x node.y then [g.getNodeAt s (node.x + 1) node.y] else []) ++
          (if g.downOK s node.x node.y then [g.getNodeAt s node.x (node.y + 1)] else []) ++
          (if g.leftOK s node.x node.y then [g.getNodeAt s (node.x - 1) node.y] else []) ++
          ((if dflag dcc (g.leftOK s node.x node.y) (g.upOK s node.x node.y) &&
              g.ulOK s node.x node.y then
            [g.getNodeAt s (node.x - 1) (node.y - 1)] else []) ++
          (if dflag dcc (g.upOK s node.x node.y) (g.rightOK s node.x node.y) &&
              g.urOK s node.x node.y then
            [g.getNodeAt s (node.x + 1) (node.y - 1)] else []) ++
          (if dflag dcc (g.rightOK s node.x node.y) (g.downOK s node.x node.y) &&
              g.drOK s node.x node.y then
            [g.getNodeAt s (node.x + 1) (node.y + 1)] else []) ++
          (if g.dlOK s node.x node.y then
            [g.getNodeAt s (node.x - 1) (node.y + 1)] else []))) := by
  intro g s node dcc
  refine ⟨fun h => ?_, fun h => ?_, fun h => ?_, fun h => ?_⟩ <;>
    rw [getNeighbors_eq g s node true dcc, h, Bool.true_and] <;> simp

/-- C3 witness: on a 3x3 obstacle-free grid at the center, the up-left
diagonal is eligible under `dontCrossCorners = true` and the four checks
pass, so the result takes the reduced form at the up-left segment. -/
theorem claim3_witness :
    dflag true (demo3.2.leftOK demo3.1 1 1) (demo3.2.upOK demo3.1 1 1) = true ∧
    demo3.2.getNeighbors demo3.1 { x := 1, y := 1, walkable := Walk.b true } true true =
      (if demo3.2.upOK demo3.1 1 1 then [demo3.2.getNodeAt demo3.1 1 0] else []) ++
      (if demo3.2.rightOK demo3.1 1 1 then [demo3.2.getNodeAt demo3.1 2 1] else []) ++
      (if demo3.2.downOK demo3.1 1 1 then [demo3.2.getNodeAt demo3.1 1 2] else []) ++
      (if demo3.2.leftOK demo3.1 1 1 then [demo3.2.getNodeAt demo3.1 0 1] else []) ++
      ((if demo3.2.ulOK demo3.1 1 1 then [demo3.2.getNodeAt demo3.1 0 0] else []) ++
      (if dflag true (demo3.2.upOK demo3.1 1 1) (demo3.2.rightOK demo3.1 1 1) &&
          demo3.2.urOK demo3.1 1 1 then [demo3.2.getNodeAt demo3.1 2 0] else []) ++
      (if dflag true (demo3.2.rightOK demo3.1 1 1) (demo3.2.downOK demo3.1 1 1) &&
          demo3.2.drOK demo3.1 1 1 then [demo3.2.getNodeAt demo3.1 2 2] else []) ++
      (if dflag true (demo3.2.downOK demo3.1 1 1) (demo3.2.leftOK demo3.1 1 1) &&
          demo3.2.dlOK demo3.1 1 1 then [demo3.2.getNodeAt demo3.1 0 2] else [])) :=
  ⟨by decide,
   (claim3_diagonal_checks demo3.2 demo3.1 { x := 1, y := 1, walkable := Walk.b true } true).1
     (by decide)⟩

/-- C10: if the orthogonal pass contributes no neighbor at all, the
diagonal pass contributes none either — every diagonal eligibility flag is
derived solely from the orthogonal success flags — so `getNeighbors` with
diagonals allowed returns the empty sequence regardless of the diagonal
cells' own walkability. -/
theorem claim10_no_orth_no_diag :
    ∀ (g : Grid) (s : Store) (node : NodeData) (dcc : Bool),
      g.getNeighbors s node false dcc = [] →
      g.getNeighbors s node true dcc = [] := by
  intro g s node dcc h
  rw [getNeighbors_eq] at h
  simp only [Bool.false_eq_true, if_false, List.append_nil, List.append_eq_nil] at h
  obtain ⟨⟨⟨hA, hB⟩, hC⟩, hD⟩ := h
  have h0 := ite_singleton_nil _ _ hA
  have h1 := ite_singleton_nil _ _ hB
  have h2 := ite_singleton_nil _ _ hC
  have h3 := ite_singleton_nil _ _ hD
  rw [getNeighbors_eq, h0, h1, h2, h3]
  cases dcc <;> simp [dflag]

/-- C10 witness: the center of `demoEnclosed` has all four orthogonal
moves blocked but all four diagonal cells walkable; with diagonals allowed
the result is still empty. -/
theorem claim10_witness :
    demoEnclosed.2.getNeighbors demoEnclosed.1
      (demoEnclosed.2.getNodeAt demoEnclosed.1 1 1) false false = [] ∧
    demoEnclosed.2.getNeighbors demoEnclosed.1
      (demoEnclosed.2.getNodeAt demoEnclosed.1 1 1) true false = [] :=
  ⟨by decide,
   claim10_no_orth_no_diag demoEnclosed.2 demoEnclosed.1
     (demoEnclosed.2.getNodeAt demoEnclosed.1 1 1) false (by decide)⟩

/-- C4 counterexample: the ragged matrix `[[1,1],[1]]` does not have width
columns in every row, yet construction succeeds (the shape check only
compares the row count and the first row's length), and the cell the short
row never covered is silently left walkable. -/
theorem claim4_counterexample :
    raggedM.all (fun r => r.length == 2) = false ∧
    (Grid.construct [] 2 2 (some raggedM)).toOption.isSome = true ∧
    demoRagged.2.isWalkableAt demoRagged.1 1 1 none = true := by
  decide

/-- C4 (amended): construction with a matrix fails — with the shape error,
returning no grid at all — iff the matrix's row count differs from `height`
or its first row's length differs from `width`; rows after the first are
not length-checked. -/
theorem claim4_first_row_shape_check :
    ∀ (s : Store) (width height : Nat) (m : List (List MVal)), 0 < height →
      ((∃ e, Grid.construct s width height (some m) = .error e) ↔
        ¬(m.length = height ∧ (m.headD []).length = width)) := by
  intro s width height m hh
  constructor
  · rintro ⟨e, he⟩ hfit
    have hok := (construct_eq_ok s width height (some m)
      (s ++ (mkNodes width height (matrixWalk (some m))).flatten)
      { width := width, height := height, nodes := allocIds s.length width height,
        iteration := 0 }).mpr ⟨hfit, rfl, rfl⟩
    rw [he] at hok
    simp at hok
  · intro hnf
    have hc : m.length ≠ height ∨ (m.headD []).length ≠ width := by tauto
    refine ⟨"Matrix size does not fit", ?_⟩
    have hb : buildNodes width height (some m) = .error "Matrix size does not fit" := by
      show (if m.length ≠ height ∨ (m.headD []).length ≠ width then
          (Except.error "Matrix size does not fit" : Except String (List (List NodeData)))
        else .ok (mkNodes width height (matrixWalk (some m)))) = _
      rw [if_pos hc]
    unfold Grid.construct
    rw [hb]
    rfl

/-- C4 witness for the amended claim, at a concrete mismatching input: a
matrix with too few rows is rejected. -/
theorem claim4_witness :
    (0 < 2 ∧ ¬(([[MVal.num 0]] : List (List MVal)).length = 2 ∧
      (([[MVal.num 0]] : List (List MVal)).headD []).length = 1)) ∧
    (∃ e, Grid.construct [] 1 2 (some [[MVal.num 0]]) = .error e) :=
  ⟨⟨by decide, by decide⟩,
   (claim4_first_row_shape_check [] 1 2 [[MVal.num 0]] (by decide)).mpr (by decide)⟩

/-- C5: after construction with a matrix, an in-bounds cell is walkable iff
the matrix value at row `y`, column `x` is falsy (and non-walkable iff
truthy); without a matrix every cell is walkable; concretely, a 2x2 matrix
with a single 1 at row 0, column 1 yields `isWalkableAt 1 0 = false` and
`true` everywhere else. -/
theorem claim5_matrix_inversion :
    (∀ (s : Store) (width height : Nat) (mm : List (List MVal)) (s' : Store) (g : Grid),
      Grid.construct s width height (some mm) = .ok (s', g) →
      ∀ (x y : Int) (border : Option String),
        0 ≤ x → x < (width : Int) → 0 ≤ y → y < (height : Int) →
        g.isWalkableAt s' x y border =
          !((mm.getD y.toNat []).getD x.toNat MVal.null).truthy) ∧
    (∀ (s : Store) (width height : Nat) (s' : Store) (g : Grid),
      Grid.construct s width height none = .ok (s', g) →
      ∀ (x y : Int) (border : Option String),
        0 ≤ x → x < (width : Int) → 0 ≤ y → y < (height : Int) →
        g.isWalkableAt s' x y border = true) ∧
    (demo5.2.isWalkableAt demo5.1 1 0 none = false ∧
     demo5.2.isWalkableAt demo5.1 0 0 none = true ∧
     demo5.2.isWalkableAt demo5.1 0 1 none = true ∧
     demo5.2.isWalkableAt demo5.1 1 1 none = true) := by
  refine ⟨?_, ?_, by decide⟩
  · intro s width height mm s' g hok x y border hx0 hxw hy0 hyh
    obtain ⟨hfit, rfl, rfl⟩ := (construct_eq_ok s width height (some mm) s' g).mp hok
    have hin : Grid.isInside
        { width := width, height := height, nodes := allocIds s.length width height,
          iteration := 0 } x y = true :=
      (isInside_iff _ x y).mpr ⟨hx0, hxw, hy0, hyh⟩
    obtain ⟨-, hxw', -, hyh'⟩ := inside_bounds _ x y hin
    have hread := construct_read s width height (some mm) _ _ hok x y hx0 hxw' hy0 hyh'
    refine isWalkableAt_eq_of_read _ _ x y border _ hin ?_
    rw [hread]
    show (if ((mm.getD y.toNat []).getD x.toNat MVal.null).truthy then Walk.b false
      else Walk.b true) = Walk.b (!((mm.getD y.toNat []).getD x.toNat MVal.null).truthy)
    cases htr : ((mm.getD y.toNat []).getD x.toNat MVal.null).truthy <;> rfl
  · intro s width height s' g hok x y border hx0 hxw hy0 hyh
    obtain ⟨-, rfl, rfl⟩ := (construct_eq_ok s width height none s' g).mp hok
    have hin : Grid.isInside
        { width := width, height := height, nodes := allocIds s.length width height,
          iteration := 0 } x y = true :=
      (isInside_iff _ x y).mpr ⟨hx0, hxw, hy0, hyh⟩
    obtain ⟨-, hxw', -, hyh'⟩ := inside_bounds _ x y hin
    have hread := construct_read s width height none _ _ hok x y hx0 hxw' hy0 hyh'
    refine isWalkableAt_eq_of_read _ _ x y border true hin ?_
    rw [hread]
    rfl

/-- C5 witness: part 1 applied to the concrete `demoM` construction at
cell (0, 0). -/
theorem claim5_witness :
    Grid.construct [] 2 2 (some demoM) = .ok (demo5.1, demo5.2) ∧
    demo5.2.isWalkableAt demo5.1 0 0 none =
      !((demoM.getD 0 []).getD 0 MVal.null).truthy :=
  ⟨by rfl,
   claim5_matrix_inversion.1 [] 2 2 demoM demo5.1 demo5.2 (by rfl) 0 0 none
     (by decide) (by decide) (by decide) (by decide)⟩

/-- C6: `isInside` is exactly the bounds test; `isWalkableAt` is false
outside bounds; inside, a directional tag `t` reads as `border != t` (so
with no border supplied a tagged cell reads walkable) and a boolean
attribute is returned as-is, ignoring `border`. -/
theorem claim6_bounds_and_border :
    ∀ (g : Grid) (s : Store) (x y : Int) (border : Option String),
      (g.isInside x y = true ↔
        0 ≤ x ∧ x < (g.width : Int) ∧ 0 ≤ y ∧ y < (g.height : Int)) ∧
      (g.isInside x y = false → g.isWalkableAt s x y border = false) ∧
      (g.isInside x y = true →
        (∀ t, (Store.read s (g.nodeId x y)).walkable = Walk.tag t →
          g.isWalkableAt s x y border = (border != some t) ∧
          g.isWalkableAt s x y none = true) ∧
        (∀ b, (Store.read s (g.nodeId x y)).walkable = Walk.b b →
          g.isWalkableAt s x y border = b)) := by
  intro g s x y border
  refine ⟨isInside_iff g x y, ?_, ?_⟩
  · intro hin
    simp [Grid.isWalkableAt, hin]
  · intro hin
    constructor
    · intro t ht
      constructor
      · simp [Grid.isWalkableAt, hin, NodeData.get, ht]
      · simp [Grid.isWalkableAt, hin, NodeData.get, ht]
    · intro b hb
      simp [Grid.isWalkableAt, hin, NodeData.get, hb]

/-- C6 witness: the 1x1 grid whose cell carries tag `"left"` blocks entry
exactly for border `"left"` and reads walkable with no border supplied. -/
theorem claim6_witness :
    (demoTagged.2.isWalkableAt demoTagged.1 0 0 (some "left") =
      ((some "left" : Option String) != some "left") ∧
     demoTagged.2.isWalkableAt demoTagged.1 0 0 none = true) ∧
    demoTagged.2.isWalkableAt demoTagged.1 5 5 (some "left") = false :=
  ⟨((claim6_bounds_and_border demoTagged.2 demoTagged.1 0 0 (some "left")).2.2
      (by decide)).1 "left" (by decide),
   (claim6_bounds_and_border demoTagged.2 demoTagged.1 5 5 (some "left")).2.1 (by decide)⟩

theorem ofNat_toNat_of_nonneg (a : Int) (h : 0 ≤ a) : Int.ofNat a.toNat = a := by
  rw [show Int.ofNat a.toNat = (a.toNat : Int) from rfl, Int.toNat_of_nonneg h]

theorem flatten_length_of_rows {α : Type} (ns : List (List α)) (w : Nat)
    (hw : ∀ r ∈ ns, r.length = w) : ns.flatten.length = ns.length * w := by
  induction ns with
  | nil => simp
  | cons r rs ih =>
    rw [List.flatten_cons, List.length_append, hw r (List.mem_cons_self r rs),
      ih (fun r hr => hw r (List.mem_cons_of_mem _ hr)), List.length_cons,
      Nat.succ_mul]
    omega

theorem mkNodes_flatten_length (w h : Nat) (f : Nat → Nat → Walk) :
    (mkNodes w h f).flatten.length = h * w := by
  rw [flatten_length_of_rows _ w (mkNodes_rows w h f), mkNodes_length]

/-- Under full well-formedness, the address of an in-bounds node is
dereferenceable. -/
theorem nodeId_lt_of_WF (g : Grid) (s : Store) (hwf : g.WF s) (x y : Int)
    (hin : g.isInside x y = true) : g.nodeId x y < s.length := by
  obtain ⟨⟨hlen, hrows⟩, hids⟩ := hwf
  obtain ⟨hx0, hxw, hy0, hyh⟩ := inside_bounds g x y hin
  have hylen : y.toNat < g.nodes.length := by rw [hlen]; exact hyh
  have hrowmem := getD_mem g.nodes y.toNat [] hylen
  have hxlen : x.toNat < (g.nodes.getD y.toNat []).length := by
    rw [hrows _ hrowmem]; exact hxw
  exact hids _ hrowmem _ (getD_mem _ x.toNat 0 hxlen)

/-- Walkability queries only look at the store through the queried node's
address. -/
theorem isWalkableAt_congr (g : Grid) (s' s : Store) (x y : Int) (border : Option String)
    (h : g.isInside x y = true → Store.read s' (g.nodeId x y) = Store.read s (g.nodeId x y)) :
    g.isWalkableAt s' x y border = g.isWalkableAt s x y border := by
  cases hin : g.isInside x y with
  | false => simp [Grid.isWalkableAt, hin]
  | true => simp [Grid.isWalkableAt, hin, h hin]

/-- `clone` in explicit form: the constructor's throw-away default array is
allocated first, then the fresh copies, and the clone's node array points
at the copies. -/
theorem clone_parts (g : Grid) (s : Store) :
    g.clone s =
      ((s ++ (mkNodes g.width g.height fun _ _ => Walk.b true).flatten) ++
        (mkNodes g.width g.height fun i j =>
          (Store.read s (g.nodeId (Int.ofNat j) (Int.ofNat i))).walkable).flatten,
       { width := g.width, height := g.height,
         nodes := allocIds
           (s ++ (mkNodes g.width g.height fun _ _ => Walk.b true).flatten).length
           g.width g.height,
         iteration := 0 }) :=
  rfl

/-- Writing through the clone's node array never touches an address the
source grid can reach. -/
theorem read_through_clone_set (g : Grid) (s : Store) (hwf : g.WF s) (x y : Int)
    (hin : g.isInside x y = true) (w : Walk) (a b : Int) (hinab : g.isInside a b = true) :
    Store.read ((g.clone s).2.setWalkableAt (g.clone s).1 x y w) (g.nodeId a b) =
      Store.read s (g.nodeId a b) := by
  obtain ⟨hx0, hxw, hy0, hyh⟩ := inside_bounds g x y hin
  have hidO : g.nodeId a b < s.length := nodeId_lt_of_WF g s hwf a b hinab
  have hle1 : s.length ≤
      (s ++ (mkNodes g.width g.height fun _ _ => Walk.b true).flatten).length := by
    rw [List.length_append]; exact Nat.le_add_right _ _
  simp only [clone_parts, Grid.setWalkableAt]
  obtain ⟨k, hk⟩ : ∃ k,
      Grid.nodeId
        { width := g.width, height := g.height,
          nodes := allocIds
            (s ++ (mkNodes g.width g.height fun _ _ => Walk.b true).flatten).length
            g.width g.height,
          iteration := 0 } x y =
        (s ++ (mkNodes g.width g.height fun _ _ => Walk.b true).flatten).length + k :=
    ⟨_, nodeId_alloc _ _ rfl x y hx0 hxw hy0 hyh⟩
  rw [hk, read_set_ne _ _ _ _ (by omega), read_append_of_lt _ _ _ (by omega),
    read_append_of_lt _ _ _ hidO]

/-- Writing through the source's node array never touches an address the
clone can reach. -/
theorem clone_read_through_source_set (g : Grid) (s : Store) (hwf : g.WF s) (x y : Int)
    (hin : g.isInside x y = true) (w : Walk) (a b : Int) (hinab : g.isInside a b = true) :
    Store.read (g.setWalkableAt (g.clone s).1 x y w) ((g.clone s).2.nodeId a b) =
      Store.read (g.clone s).1 ((g.clone s).2.nodeId a b) := by
  obtain ⟨ha0, haw, hb0, hbh⟩ := inside_bounds g a b hinab
  have hidO : g.nodeId x y < s.length := nodeId_lt_of_WF g s hwf x y hin
  have hle1 : s.length ≤
      (s ++ (mkNodes g.width g.height fun _ _ => Walk.b true).flatten).length := by
    rw [List.length_append]; exact Nat.le_add_right _ _
  simp only [clone_parts, Grid.setWalkableAt]
  obtain ⟨k, hk⟩ : ∃ k,
      Grid.nodeId
        { width := g.width, height := g.height,
          nodes := allocIds
            (s ++ (mkNodes g.width g.height fun _ _ => Walk.b true).flatten).length
            g.width g.height,
          iteration := 0 } a b =
        (s ++ (mkNodes g.width g.height fun _ _ => Walk.b true).flatten).length + k :=
    ⟨_, nodeId_alloc _ _ rfl a b ha0 haw hb0 hbh⟩
  rw [hk]
  exact read_set_ne _ _ _ _ (by omega)

/-- C7: `clone` keeps width and height, resets `iteration` to 0, and builds
a fresh node array whose cells copy exactly the `walkable` attribute of the
source node at the same coordinates; and (on a well-formed grid) no node is
shared: `setWalkableAt` on the clone leaves every walkability reading of
the original — against the original's own store — unchanged, and
`setWalkableAt` on the original leaves every walkability reading of the
clone unchanged. -/
theorem claim7_clone_independence :
    ∀ (g : Grid) (s : Store),
      ((g.clone s).2.width = g.width ∧ (g.clone s).2.height = g.height ∧
        (g.clone s).2.iteration = 0) ∧
      (∀ x y : Int, g.isInside x y = true →
        Store.read (g.clone s).1 ((g.clone s).2.nodeId x y) =
          { x := x, y := y, walkable := (Store.read s (g.nodeId x y)).walkable }) ∧
      (g.WF s →
        (∀ (x y : Int) (w : Walk), g.isInside x y = true →
          ∀ (a b : Int) (border : Option String),
            g.isWalkableAt ((g.clone s).2.setWalkableAt (g.clone s).1 x y w) a b border =
              g.isWalkableAt s a b border) ∧
        (∀ (x y : Int) (w : Walk), g.isInside x y = true →
          ∀ (a b : Int) (border : Option String),
            (g.clone s).2.isWalkableAt (g.setWalkableAt (g.clone s).1 x y w) a b border =
              (g.clone s).2.isWalkableAt (g.clone s).1 a b border)) := by
  intro g s
  refine ⟨⟨?_, ?_, ?_⟩, ?_, fun hwf => ⟨?_, ?_⟩⟩
  · rw [clone_parts]
  · rw [clone_parts]
  · rw [clone_parts]
  · intro x y hin
    obtain ⟨hx0, hxw, hy0, hyh⟩ := inside_bounds g x y hin
    simp only [clone_parts]
    have hnode := nodeId_alloc
      { width := g.width, height := g.height,
        nodes := allocIds
          (s ++ (mkNodes g.width g.height fun _ _ => Walk.b true).flatten).length
          g.width g.height,
        iteration := 0 }
      ((s ++ (mkNodes g.width g.height fun _ _ => Walk.b true).flatten).length)
      rfl x y hx0 hxw hy0 hyh
    rw [hnode, read_append_add]
    show (mkNodes g.width g.height _).flatten.getD _ defaultNode = _
    rw [mkNodes_flatten_getD g.width g.height _ y.toNat x.toNat hyh hxw,
      ofNat_toNat_of_nonneg x hx0, ofNat_toNat_of_nonneg y hy0]
  · intro x y w hin a b border
    exact isWalkableAt_congr g _ s a b border
      (fun hinab => read_through_clone_set g s hwf x y hin w a b hinab)
  · intro x y w hin a b border
    exact isWalkableAt_congr _ _ _ a b border
      (fun hinab => clone_read_through_source_set g s hwf x y hin w a b hinab)

/-- C7 witness: on the 2x2 demo grid, the clone starts at iteration 0, its
cell (0,0) copies the source's walkable attribute, and blocking (0,0) on
the clone leaves the original's walkability reading unchanged. -/
theorem claim7_witness :
    (demo2.2.clone demo2.1).2.iteration = 0 ∧
    Store.read (demo2.2.clone demo2.1).1 ((demo2.2.clone demo2.1).2.nodeId 0 0) =
      { x := 0, y := 0, walkable := (Store.read demo2.1 (demo2.2.nodeId 0 0)).walkable } ∧
    demo2.2.isWalkableAt
        ((demo2.2.clone demo2.1).2.setWalkableAt (demo2.2.clone demo2.1).1 0 0 (Walk.b false))
        0 0 none =
      demo2.2.isWalkableAt demo2.1 0 0 none :=
  ⟨(claim7_clone_independence demo2.2 demo2.1).1.2.2,
   (claim7_clone_independence demo2.2 demo2.1).2.1 0 0 (by decide),
   ((claim7_clone_independence demo2.2 demo2.1).2.2 (by decide)).1 0 0 (Walk.b false)
     (by decide) 0 0 none⟩

/-- C8: `iteration` starts at 0 at construction, and `increment` adds
exactly 1 to it while leaving the width, height, and node array unchanged
(no other operation of the embedding produces a modified grid). -/
theorem claim8_iteration_protocol :
    (∀ (s : Store) (width height : Nat) (m : Option (List (List MVal)))
      (s' : Store) (g : Grid),
      Grid.construct s width height m = .ok (s', g) → g.iteration = 0) ∧
    (∀ g : Grid, g.increment.iteration = g.iteration + 1 ∧
      g.increment.width = g.width ∧ g.increment.height = g.height ∧
      g.increment.nodes = g.nodes) := by
  constructor
  · intro s width height m s' g hok
    obtain ⟨-, -, rfl⟩ := (construct_eq_ok s width height m s' g).mp hok
    rfl
  · intro g
    exact ⟨rfl, rfl, rfl, rfl⟩

/-- C8 witness: a fresh 1x1 grid starts at iteration 0, and incrementing
the 2x2 demo grid adds one. -/
theorem claim8_witness :
    (Grid.new [] 1 1).2.iteration = 0 ∧
    demo2.2.increment.iteration = demo2.2.iteration + 1 :=
  ⟨claim8_iteration_protocol.1 [] 1 1 none (Grid.new [] 1 1).1 (Grid.new [] 1 1).2 rfl,
   (claim8_iteration_protocol.2 demo2.2).1⟩

/-- C9: under the node-array shape invariant, `getNeighbors` on an
in-bounds node performs no out-of-bounds node-array access — the fully
bounds-checked run succeeds and returns exactly the unchecked result, with
out-of-grid directions simply absent. -/
theorem claim9_no_out_of_bounds :
    ∀ (g : Grid) (s : Store) (node : NodeData) (ad dcc : Bool),
      g.Shape → g.isInside node.x node.y = true →
      g.getNeighborsChecked s node ad dcc = some (g.getNeighbors s node ad dcc) := by
  intro g s node ad dcc hs _
  exact getNeighborsChecked_eq g s hs node ad dcc

/-- C9 witness: at the corner (0, 0) of the 4x4 demo grid, the
bounds-checked run succeeds. -/
theorem claim9_witness :
    demo4.2.getNeighborsChecked demo4.1 (demo4.2.getNodeAt demo4.1 0 0) true true =
      some (demo4.2.getNeighbors demo4.1 (demo4.2.getNodeAt demo4.1 0 0) true true) :=
  claim9_no_out_of_bounds demo4.2 demo4.1 (demo4.2.getNodeAt demo4.1 0 0) true true
    (by decide) (by decide)

end PathFinding
